import Mathlib

/-!
Verification of the Sighting Aggregation & Geo-Filter Engine of the
kuma-map repository: a shallow embedding in Lean 4 of the paginated
Supabase fetcher (`getSightings` in `src/app/page.tsx`), the region
taxonomy, the reverse-geocode adapter, the location detector and the
filter pipeline (`src/components/SightingsView.tsx`), together with
proofs of the specified properties.

Calendar dates are modelled as `(year, month, day)` triples with the
JavaScript convention `month ∈ 0..11`; JavaScript `Date` comparison of
valid dates agrees with lexicographic order on the triple, which we
realise through an injective monotone integer key.
-/

namespace KumaMap

/-! ## Dates

`SimpleDate` models a JavaScript `Date` at day granularity: `month` is
the 0-based month index, `day` the 1-based day of month. -/

structure SimpleDate where
  year : Int
  month : Nat
  day : Nat
deriving DecidableEq, Repr

def isLeapYear (y : Int) : Bool :=
  (y % 4 == 0 && y % 100 != 0) || (y % 400 == 0)

def daysInMonth (y : Int) (m : Nat) : Nat :=
  match m with
  | 0 => 31
  | 1 => if isLeapYear y then 29 else 28
  | 2 => 31
  | 3 => 30
  | 4 => 31
  | 5 => 30
  | 6 => 31
  | 7 => 31
  | 8 => 30
  | 9 => 31
  | 10 => 30
  | _ => 31

/-- A normalised calendar date, as produced by a JavaScript `Date`. -/
def SimpleDate.Valid (d : SimpleDate) : Prop :=
  d.month ≤ 11 ∧ 1 ≤ d.day ∧ d.day ≤ daysInMonth d.year d.month

instance (d : SimpleDate) : Decidable d.Valid := by
  unfold SimpleDate.Valid; infer_instance

/-- Injective monotone key: for valid dates, ordering by this key agrees
with JavaScript `Date` (timestamp) ordering. -/
def dateKey (d : SimpleDate) : Int :=
  d.year * 372 + (d.month : Int) * 31 + (d.day : Int)

/-- Embeds the comparison `new Date(s.date) >= sixMonthsAgo`. -/
def dateLe (a b : SimpleDate) : Bool :=
  decide (dateKey a ≤ dateKey b)

/-- Embeds `getSixMonthsAgo` (`SightingsView.tsx` lines 77-81):
`date.setMonth(date.getMonth() - 6)` with JavaScript day-overflow
normalisation (a day past the end of the target month rolls into the
following month). -/
def getSixMonthsAgo (d : SimpleDate) : SimpleDate :=
  let y : Int := if d.month ≥ 6 then d.year else d.year - 1
  let m : Nat := if d.month ≥ 6 then d.month - 6 else d.month + 6
  if d.day ≤ daysInMonth y m then ⟨y, m, d.day⟩
  else
    let d' := d.day - daysInMonth y m
    if m = 11 then ⟨y + 1, 0, d'⟩ else ⟨y, m + 1, d'⟩

/-- Calendar successor of a date. -/
def nextDay (d : SimpleDate) : SimpleDate :=
  if d.day < daysInMonth d.year d.month then ⟨d.year, d.month, d.day + 1⟩
  else if d.month < 11 then ⟨d.year, d.month + 1, 1⟩
  else ⟨d.year + 1, 0, 1⟩

/-- Calendar predecessor of a date. -/
def prevDay (d : SimpleDate) : SimpleDate :=
  if 1 < d.day then ⟨d.year, d.month, d.day - 1⟩
  else if d.month = 0 then ⟨d.year - 1, 11, 31⟩
  else ⟨d.year, d.month - 1, daysInMonth d.year (d.month - 1)⟩

theorem daysInMonth_bounds (y : Int) (m : Nat) :
    28 ≤ daysInMonth y m ∧ daysInMonth y m ≤ 31 := by
  unfold daysInMonth
  cases h : isLeapYear y <;>
    rcases m with _ | _ | _ | _ | _ | _ | _ | _ | _ | _ | _ | m <;>
      simp [h] <;> omega

theorem valid_mk (y : Int) (m day : Nat) (h1 : m ≤ 11) (h2 : 1 ≤ day)
    (h3 : day ≤ daysInMonth y m) : SimpleDate.Valid ⟨y, m, day⟩ :=
  ⟨h1, h2, h3⟩

theorem getSixMonthsAgo_valid (d : SimpleDate) (hd : d.Valid) :
    (getSixMonthsAgo d).Valid := by
  obtain ⟨hm, hd1, hd2⟩ := hd
  have hb0 := daysInMonth_bounds d.year d.month
  have hd31 : d.day ≤ 31 := le_trans hd2 hb0.2
  unfold getSixMonthsAgo
  by_cases h6 : d.month ≥ 6 <;>
    simp only [h6, if_true, if_false, ite_true, ite_false]
  · by_cases hover : d.day ≤ daysInMonth d.year (d.month - 6)
    · rw [if_pos hover]
      exact valid_mk _ _ _ (by omega) hd1 hover
    · rw [if_neg hover]
      have hb1 := daysInMonth_bounds d.year (d.month - 6)
      by_cases h11 : d.month - 6 = 11
      · exact absurd h11 (by omega)
      · rw [if_neg h11]
        have hb2 := daysInMonth_bounds d.year (d.month - 6 + 1)
        exact valid_mk _ _ _ (by omega) (by omega) (by omega)
  · by_cases hover : d.day ≤ daysInMonth (d.year - 1) (d.month + 6)
    · rw [if_pos hover]
      exact valid_mk _ _ _ (by omega) hd1 hover
    · rw [if_neg hover]
      have hb1 := daysInMonth_bounds (d.year - 1) (d.month + 6)
      by_cases h11 : d.month + 6 = 11
      · have h31 : daysInMonth (d.year - 1) (d.month + 6) = 31 := by
          rw [h11]; rfl
        exact absurd hover (by omega)
      · rw [if_neg h11]
        have hb2 := daysInMonth_bounds (d.year - 1) (d.month + 6 + 1)
        exact valid_mk _ _ _ (by omega) (by omega) (by omega)

theorem dateLe_nextDay (d : SimpleDate) (hd : d.Valid) :
    dateLe d (nextDay d) = true := by
  obtain ⟨hm, hd1, hd2⟩ := hd
  have hb := daysInMonth_bounds d.year d.month
  unfold dateLe nextDay dateKey
  by_cases h1 : d.day < daysInMonth d.year d.month
  · rw [if_pos h1]
    simp only [decide_eq_true_eq]
    omega
  · rw [if_neg h1]
    by_cases h2 : d.month < 11
    · rw [if_pos h2]
      simp only [decide_eq_true_eq]
      omega
    · rw [if_neg h2]
      simp only [decide_eq_true_eq]
      omega

theorem not_dateLe_prevDay (d : SimpleDate) (hd : d.Valid) :
    dateLe d (prevDay d) = false := by
  obtain ⟨hm, hd1, hd2⟩ := hd
  have hb := daysInMonth_bounds d.year d.month
  unfold dateLe prevDay dateKey
  by_cases h1 : 1 < d.day
  · rw [if_pos h1]
    simp only [decide_eq_false_iff_not, not_le]
    omega
  · rw [if_neg h1]
    by_cases h2 : d.month = 0
    · rw [if_pos h2, h2]
      simp only [decide_eq_false_iff_not, not_le]
      omega
    · rw [if_neg h2]
      have hb' := daysInMonth_bounds d.year (d.month - 1)
      simp only [decide_eq_false_iff_not, not_le]
      omega

/-! ## Data model

`BearSightingRow` is the snake-cased row shape served by the backing
store; `BearSighting` is the canonical camel-cased record
(`src/types`), produced at the boundary by `rowToSighting`
(`page.tsx` lines 37-48). -/

structure BearSightingRow where
  id : String
  date : SimpleDate
  prefecture : String
  city : String
  location : String
  lat : Int
  lng : Int
  source : String
  summary : String
  created_at : String
deriving DecidableEq, Repr

structure BearSighting where
  id : String
  date : SimpleDate
  prefecture : String
  city : String
  location : String
  lat : Int
  lng : Int
  source : String
  summary : String
  createdAt : String
deriving DecidableEq, Repr

def rowToSighting (row : BearSightingRow) : BearSighting :=
  { id := row.id
    date := row.date
    prefecture := row.prefecture
    city := row.city
    location := row.location
    lat := row.lat
    lng := row.lng
    source := row.source
    summary := row.summary
    createdAt := row.created_at }

/-! ## PaginatedFetcher (`getSightings`, `page.tsx` lines 6-49)

The backing store is a fixed list of rows in its served order
(descending date); a range request `[from, to]` returns the rows at
indices `from..to`.  `err page` says whether the request for that page
reports an error.  The while loop is embedded with explicit fuel; each
recursive step consumes a full page of `pageSize` rows, so
`store.length + 1` units of fuel always suffice. -/

def pageSize : Nat := 1000

def fetchPagesAux (store : List BearSightingRow) (err : Nat → Bool) :
    Nat → Nat → List BearSightingRow
  | 0, _ => []
  | fuel + 1, page =>
    if err page then []
    else
      let data := (store.drop (page * pageSize)).take pageSize
      if data.length = pageSize then data ++ fetchPagesAux store err fuel (page + 1)
      else data

def getSightings (store : List BearSightingRow) (err : Nat → Bool) :
    List BearSighting :=
  (fetchPagesAux store err (store.length + 1) 0).map rowToSighting

/-- With no errors, the loop starting at `page` returns the next
`fuel` pages of the store. -/
theorem fetchPagesAux_no_error (store : List BearSightingRow) :
    ∀ fuel page,
      fetchPagesAux store (fun _ => false) fuel page =
        (store.drop (page * pageSize)).take (fuel * pageSize) := by
  intro fuel
  induction fuel with
  | zero => intro page; simp [fetchPagesAux]
  | succ n ih =>
    intro page
    rw [fetchPagesAux, if_neg (by simp)]
    by_cases h : ((store.drop (page * pageSize)).take pageSize).length = pageSize
    · simp only [h, if_pos, ih]
      have hdd : store.drop ((page + 1) * pageSize) =
          (store.drop (page * pageSize)).drop pageSize := by
        rw [List.drop_drop]; ring_nf
      rw [hdd]
      rw [← List.take_add]
      congr 1
      ring
    · simp only [h, if_neg, if_false]
      have hlen : (store.drop (page * pageSize)).length < pageSize := by
        have := List.length_take pageSize (store.drop (page * pageSize))
        omega
      have hps : pageSize ≤ (n + 1) * pageSize :=
        Nat.le_mul_of_pos_left pageSize (Nat.succ_pos n)
      rw [List.take_of_length_le (by omega), List.take_of_length_le (by omega)]

/-- With pages `0..k-1` succeeding and page `k` failing, the loop
starting at `page ≤ k` returns exactly the `k - page` full pages before
the failure. -/
theorem fetchPagesAux_error_at (store : List BearSightingRow) (err : Nat → Bool)
    (k : Nat) (hk : err k = true) (hpre : ∀ j, j < k → err j = false)
    (hlen : k * pageSize ≤ store.length) :
    ∀ fuel page, page ≤ k → k - page < fuel →
      fetchPagesAux store err fuel page =
        (store.drop (page * pageSize)).take ((k - page) * pageSize) := by
  intro fuel
  induction fuel with
  | zero => intro page _ h; omega
  | succ n ih =>
    intro page hpk hfuel
    by_cases hpage : page = k
    · subst hpage
      simp [fetchPagesAux, hk]
    · have hlt : page < k := by omega
      rw [fetchPagesAux, if_neg (by simp [hpre page hlt])]
      have hfull : ((store.drop (page * pageSize)).take pageSize).length = pageSize := by
        have hsucc : (page + 1) * pageSize = page * pageSize + pageSize := by ring
        have h1 : (page + 1) * pageSize ≤ k * pageSize :=
          Nat.mul_le_mul_right pageSize (by omega)
        rw [hsucc] at h1
        rw [List.length_take, List.length_drop]
        omega
      simp only [hfull, if_pos]
      rw [ih (page + 1) (by omega) (by omega)]
      have hdd : store.drop ((page + 1) * pageSize) =
          (store.drop (page * pageSize)).drop pageSize := by
        rw [List.drop_drop]; ring_nf
      rw [hdd, ← List.take_add]
      congr 1
      have : k - page = (k - (page + 1)) + 1 := by omega
      rw [this]; ring

/-! ## RegionTaxonomy (`REGIONS`, `SightingsView.tsx` lines 23-32)

`REGIONS` is the fixed region → prefecture-list mapping, kept in the
source's entry (display) order. -/

def REGIONS : List (String × List String) :=
  [("北海道", ["北海道"]),
   ("東北", ["青森県", "岩手県", "宮城県", "秋田県", "山形県", "福島県"]),
   ("関東", ["茨城県", "栃木県", "群馬県", "埼玉県", "千葉県", "東京都", "神奈川県"]),
   ("中部", ["新潟県", "富山県", "石川県", "福井県", "山梨県", "長野県", "岐阜県", "静岡県", "愛知県"]),
   ("関西", ["三重県", "滋賀県", "京都府", "大阪府", "兵庫県", "奈良県", "和歌山県"]),
   ("中国", ["鳥取県", "島根県", "岡山県", "広島県", "山口県"]),
   ("四国", ["徳島県", "香川県", "愛媛県", "高知県"]),
   ("九州・沖縄", ["福岡県", "佐賀県", "長崎県", "熊本県", "大分県", "宮崎県", "鹿児島県", "沖縄県"])]

/-- First-match lookup over the region table, as the `for` loop of
`getRegionFromPrefecture` iterates `Object.entries(REGIONS)`. -/
def regionLookup (l : List (String × List String)) (p : String) : Option String :=
  match l with
  | [] => none
  | (region, prefs) :: rest =>
    if prefs.contains p then some region else regionLookup rest p

/-- Embeds `getRegionFromPrefecture` (`SightingsView.tsx` lines 35-42). -/
def getRegionFromPrefecture (p : String) : Option String :=
  regionLookup REGIONS p

/-- Embeds `REGIONS[r] || []`. -/
def regionPrefsOf (r : String) : List String :=
  (REGIONS.lookup r).getD []

/-! ## ReverseGeocodeAdapter (`getPrefectureFromCoords`,
`SightingsView.tsx` lines 45-74)

The one-shot HTTP call is abstracted as its observable outcome: either
the fetch/JSON step threw, or it produced a response whose
`results.mupicode` field is present or absent.  The `try/catch`
swallows the thrown case into `null`. -/

inductive GeoFetchOutcome where
  | thrown : GeoFetchOutcome
  | response : Option String → GeoFetchOutcome
deriving DecidableEq, Repr

/-- The fixed 2-digit code → prefecture-name table of
`getPrefectureFromCoords`. -/
def prefCodeTable : List (String × String) :=
  [("01", "北海道"), ("02", "青森県"), ("03", "岩手県"), ("04", "宮城県"),
   ("05", "秋田県"), ("06", "山形県"), ("07", "福島県"), ("08", "茨城県"),
   ("09", "栃木県"), ("10", "群馬県"), ("11", "埼玉県"), ("12", "千葉県"),
   ("13", "東京都"), ("14", "神奈川県"), ("15", "新潟県"), ("16", "富山県"),
   ("17", "石川県"), ("18", "福井県"), ("19", "山梨県"), ("20", "長野県"),
   ("21", "岐阜県"), ("22", "静岡県"), ("23", "愛知県"), ("24", "三重県"),
   ("25", "滋賀県"), ("26", "京都府"), ("27", "大阪府"), ("28", "兵庫県"),
   ("29", "奈良県"), ("30", "和歌山県"), ("31", "鳥取県"), ("32", "島根県"),
   ("33", "岡山県"), ("34", "広島県"), ("35", "山口県"), ("36", "徳島県"),
   ("37", "香川県"), ("38", "愛媛県"), ("39", "高知県"), ("40", "福岡県"),
   ("41", "佐賀県"), ("42", "長崎県"), ("43", "熊本県"), ("44", "大分県"),
   ("45", "宮崎県"), ("46", "鹿児島県"), ("47", "沖縄県")]

/-- The 47 canonical prefecture names, i.e. the values of the code
table. -/
def prefNames47 : List String :=
  prefCodeTable.map Prod.snd

/-- Embeds `getPrefectureFromCoords`: `mupicode.substring(0, 2)` keys
the fixed table, `prefectures[prefCode] || null` becomes an `Option`,
and both the missing-field case and the thrown case collapse to
`none`. -/
def getPrefectureFromCoords (o : GeoFetchOutcome) : Option String :=
  match o with
  | .thrown => none
  | .response none => none
  | .response (some mupicode) => prefCodeTable.lookup (mupicode.take 2)

/-! ## View state and LocationDetector (`SightingsView.tsx` lines 83-148)

The React component state that the claims are about, with the state
handlers as pure state transitions. -/

structure ViewState where
  selectedRegion : String
  selectedPrefecture : String
  isLocating : Bool
  locationError : Option String
  detectedPrefecture : Option String
deriving DecidableEq, Repr

/-- The `useState` initial values (lines 84-89). -/
def initialViewState : ViewState :=
  { selectedRegion := "all"
    selectedPrefecture := "all"
    isLocating := false
    locationError := none
    detectedPrefecture := none }

/-- Embeds `handleRegionChange` (lines 93-96). -/
def handleRegionChange (st : ViewState) (region : String) : ViewState :=
  { st with selectedRegion := region, selectedPrefecture := "all" }

/-- Embeds the `detectLocation` early return when
`navigator.geolocation` is missing (lines 99-102). -/
def detectUnsupported (st : ViewState) : ViewState :=
  { st with locationError := some "位置情報に対応していません" }

/-- Embeds `setIsLocating(true); setLocationError(null)`
(lines 104-105), run before the position request of a supported
environment. -/
def startLocating (st : ViewState) : ViewState :=
  { st with isLocating := true, locationError := none }

/-- Embeds the geolocation success callback (lines 108-125), taking
the already-computed `getPrefectureFromCoords` result. -/
def onPositionSuccess (sightings : List BearSighting) (st : ViewState)
    (pref : Option String) : ViewState :=
  match pref with
  | some pref =>
    let st := { st with detectedPrefecture := some pref }
    let st :=
      if sightings.any (fun s => s.prefecture = pref) then
        let st :=
          match getRegionFromPrefecture pref with
          | some region => { st with selectedRegion := region }
          | none => st
        { st with selectedPrefecture := pref }
      else
        match getRegionFromPrefecture pref with
        | some region => { st with selectedRegion := region }
        | none => st
    { st with isLocating := false }
  | none =>
    { { st with locationError := some "都道府県を特定できませんでした" }
        with isLocating := false }

inductive GeolocErrorCode where
  | permissionDenied
  | positionUnavailable
  | timeout
  | unknown
deriving DecidableEq, Repr

def geolocErrorMessage (code : GeolocErrorCode) : String :=
  match code with
  | .permissionDenied => "位置情報が許可されていません"
  | .positionUnavailable => "位置情報を取得できませんでした"
  | .timeout => "位置情報の取得がタイムアウトしました"
  | .unknown => "位置情報の取得に失敗しました"

/-- Embeds the geolocation error callback (lines 126-141). -/
def onPositionError (st : ViewState) (code : GeolocErrorCode) : ViewState :=
  { st with locationError := some (geolocErrorMessage code), isLocating := false }

/-- A whole `detectLocation` run whose position request succeeds and
whose geocode call produced outcome `o`. -/
def detectWithPosition (sightings : List BearSighting) (st : ViewState)
    (o : GeoFetchOutcome) : ViewState :=
  onPositionSuccess sightings (startLocating st) (getPrefectureFromCoords o)

/-- A whole `detectLocation` run whose position request fails with
`code`. -/
def detectWithFailure (st : ViewState) (code : GeolocErrorCode) : ViewState :=
  onPositionError (startLocating st) code

/-! ## FilterPipeline (`SightingsView.tsx` lines 150-201) -/

/-- Embeds `regionCounts` (lines 150-158): one entry per region of
`REGIONS`, counting over the unfiltered collection. -/
def regionCounts (sightings : List BearSighting) : List (String × Nat) :=
  REGIONS.map fun e =>
    (e.1, (sightings.filter (fun s => e.2.contains s.prefecture)).length)

/-- One step of the `prefectureCounts` accumulation:
`counts[s.prefecture] = (counts[s.prefecture] || 0) + 1` on a
JavaScript object, i.e. bump the existing key or append a new one. -/
def incCount (counts : List (String × Nat)) (p : String) : List (String × Nat) :=
  if counts.any (fun kv => kv.1 = p) then
    counts.map fun kv => if kv.1 = p then (kv.1, kv.2 + 1) else kv
  else counts ++ [(p, 1)]

/-- Embeds `prefectureCounts` (lines 160-166). -/
def prefectureCounts (sightings : List BearSighting) : List (String × Nat) :=
  sightings.foldl (fun c s => incCount c s.prefecture) []

/-- Embeds `filteredSightings` (lines 181-199): period filter (unless
`showAllPeriod`), then region filter, then prefecture filter. -/
def filteredSightings (sightings : List BearSighting) (showAllPeriod : Bool)
    (selectedRegion selectedPrefecture : String) (now : SimpleDate) :
    List BearSighting :=
  let sixMonthsAgo := getSixMonthsAgo now
  let f1 :=
    if showAllPeriod then sightings
    else sightings.filter fun s => dateLe sixMonthsAgo s.date
  let f2 :=
    if selectedRegion ≠ "all" then
      f1.filter fun s => (regionPrefsOf selectedRegion).contains s.prefecture
    else f1
  if selectedPrefecture ≠ "all" then
    f2.filter fun s => s.prefecture = selectedPrefecture
  else f2

/-- Embeds `recentSightings = filteredSightings.slice(0, 10)`
(line 201). -/
def recentSightings (sightings : List BearSighting) (showAllPeriod : Bool)
    (selectedRegion selectedPrefecture : String) (now : SimpleDate) :
    List BearSighting :=
  (filteredSightings sightings showAllPeriod selectedRegion selectedPrefecture now).take 10

/-- The three derived views the component computes from the collection
and the filter state, bundled as the spec's
`apply(collection, state, now)`. -/
def applyPipeline (sightings : List BearSighting) (showAllPeriod : Bool)
    (selectedRegion selectedPrefecture : String) (now : SimpleDate) :
    List BearSighting × List (String × Nat) × List (String × Nat) :=
  (filteredSightings sightings showAllPeriod selectedRegion selectedPrefecture now,
   regionCounts sightings,
   prefectureCounts sightings)

/-! ## Helper lemmas -/

theorem regionLookup_eq_some (l : List (String × List String)) (p r : String)
    (h : regionLookup l p = some r) : ∃ prefs, (r, prefs) ∈ l ∧ p ∈ prefs := by
  induction l with
  | nil => simp [regionLookup] at h
  | cons e rest ih =>
    obtain ⟨region, prefs⟩ := e
    rw [regionLookup] at h
    by_cases hc : prefs.contains p
    · rw [if_pos hc] at h
      refine ⟨prefs, ?_, ?_⟩
      · rw [Option.some.injEq] at h
        rw [← h]
        exact List.mem_cons_self _ _
      · simpa using hc
    · rw [if_neg hc] at h
      obtain ⟨prefs', hmem, hp⟩ := ih h
      exact ⟨prefs', List.mem_cons_of_mem _ hmem, hp⟩

theorem lookup_mem_values {α β : Type} [BEq α] (l : List (α × β)) (k : α) (v : β)
    (h : l.lookup k = some v) : v ∈ l.map Prod.snd := by
  induction l with
  | nil => simp [List.lookup] at h
  | cons e rest ih =>
    obtain ⟨k1, v1⟩ := e
    rw [List.lookup] at h
    by_cases hk : k == k1
    · simp only [hk] at h
      rw [Option.some.injEq] at h
      rw [← h]
      exact List.mem_cons_self _ _
    · rw [Bool.not_eq_true] at hk
      simp only [hk] at h
      exact List.mem_cons_of_mem _ (ih h)

theorem regions_totality :
    ∀ q ∈ prefNames47,
      ∃ r ∈ REGIONS.map Prod.fst, getRegionFromPrefecture q = some r := by
  decide

theorem regions_join_sub :
    ∀ q ∈ (REGIONS.map Prod.snd).flatten, q ∈ prefNames47 := by
  decide

theorem regions_sub_join :
    ∀ q ∈ prefNames47, q ∈ (REGIONS.map Prod.snd).flatten := by
  decide

theorem regions_pairwise_disjoint :
    REGIONS.Pairwise fun a b => ∀ q ∈ a.2, q ∉ b.2 := by
  decide

/-! ## C1: pagination completeness -/

/-- C1: with every range request succeeding, `getSightings` returns
exactly the store's rows, each once and in store order (issuing pages
at offsets `[page*1000, page*1000+999]`, stopping at the first short
page); hence a 3017-row store yields 3017 rows and an empty first page
yields an empty result. -/
theorem getSightings_no_error_complete :
    ∀ store : List BearSightingRow,
      getSightings store (fun _ => false) = store.map rowToSighting ∧
      (getSightings store (fun _ => false)).length = store.length ∧
      getSightings [] (fun _ => false) = [] := by
  intro store
  have hmain : ∀ st : List BearSightingRow,
      getSightings st (fun _ => false) = st.map rowToSighting := by
    intro st
    unfold getSightings
    rw [fetchPagesAux_no_error]
    have hle : st.length ≤ (st.length + 1) * pageSize := by
      have h1 : st.length + 1 ≤ (st.length + 1) * pageSize :=
        Nat.le_mul_of_pos_right _ (by norm_num [pageSize])
      omega
    rw [Nat.zero_mul, List.drop_zero, List.take_of_length_le hle]
  refine ⟨hmain store, ?_, hmain []⟩
  rw [hmain store, List.length_map]

/-! ## C5: pagination partial failure -/

/-- C5: if pages `0..k-1` succeed and the `(k+1)`-th request (page `k`)
reports an error, `getSightings` terminates normally and returns
exactly the rows of the `k` earlier pages, order preserved, nothing
duplicated. -/
theorem getSightings_partial_on_error (store : List BearSightingRow)
    (err : Nat → Bool) (k : Nat) (hk : err k = true)
    (hpre : ∀ j, j < k → err j = false) (hlen : k * pageSize ≤ store.length) :
    getSightings store err = (store.take (k * pageSize)).map rowToSighting := by
  unfold getSightings
  have hfuel : k - 0 < store.length + 1 := by
    have h1 : k ≤ k * pageSize := Nat.le_mul_of_pos_right _ (by norm_num [pageSize])
    omega
  rw [fetchPagesAux_error_at store err k hk hpre hlen (store.length + 1) 0
    (Nat.zero_le k) hfuel]
  rw [Nat.zero_mul, List.drop_zero, Nat.sub_zero]

/-- Witness for C5: with the very first page request failing, the
result is empty. -/
theorem getSightings_partial_on_error_witness :
    getSightings
      [{ id := "a", date := ⟨2025, 0, 1⟩, prefecture := "北海道", city := "",
         location := "", lat := 0, lng := 0, source := "", summary := "",
         created_at := "" }]
      (fun _ => true) = [] := by
  have h := getSightings_partial_on_error
    [{ id := "a", date := ⟨2025, 0, 1⟩, prefecture := "北海道", city := "",
       location := "", lat := 0, lng := 0, source := "", summary := "",
       created_at := "" }]
    (fun _ => true) 0 rfl (fun j hj => absurd hj (Nat.not_lt_zero j))
    (Nat.zero_le _)
  simpa using h

/-! ## C3: taxonomy totality and disjointness -/

/-- C3: `getRegionFromPrefecture` maps each of the 47 canonical
prefecture names to one of the 8 canonical region names and every
other string to `null`; the regions' prefecture sets are pairwise
disjoint and their union is exactly the canonical 47-name set. -/
theorem getRegionFromPrefecture_taxonomy (p : String) :
    (p ∈ prefNames47 →
      ∃ r, getRegionFromPrefecture p = some r ∧ r ∈ REGIONS.map Prod.fst) ∧
    (∀ r, getRegionFromPrefecture p = some r → p ∈ prefNames47) ∧
    (p ∈ (REGIONS.map Prod.snd).flatten ↔ p ∈ prefNames47) ∧
    REGIONS.Pairwise (fun a b => ∀ q ∈ a.2, q ∉ b.2) := by
  refine ⟨?_, ?_, ⟨regions_join_sub p, regions_sub_join p⟩, regions_pairwise_disjoint⟩
  · intro hp
    obtain ⟨r, hr, hsome⟩ := regions_totality p hp
    exact ⟨r, hsome, hr⟩
  · intro r hr
    obtain ⟨prefs, hmem, hp⟩ := regionLookup_eq_some REGIONS p r hr
    refine regions_join_sub p ?_
    rw [List.mem_flatten]
    exact ⟨prefs, List.mem_map_of_mem Prod.snd hmem, hp⟩

/-- Witness for C3 at the prefecture 北海道. -/
theorem getRegionFromPrefecture_taxonomy_witness :
    ∃ r, getRegionFromPrefecture "北海道" = some r ∧ r ∈ REGIONS.map Prod.fst :=
  (getRegionFromPrefecture_taxonomy "北海道").1 (by decide)

/-! ## Filter pipeline normal form -/

theorem filteredSightings_eq_filter (sightings : List BearSighting)
    (showAllPeriod : Bool) (r p : String) (now : SimpleDate) :
    filteredSightings sightings showAllPeriod r p now =
      sightings.filter fun s =>
        (showAllPeriod || dateLe (getSixMonthsAgo now) s.date) &&
        (decide (r = "all") || (regionPrefsOf r).contains s.prefecture) &&
        (decide (p = "all") || decide (s.prefecture = p)) := by
  unfold filteredSightings
  cases showAllPeriod <;>
    by_cases hr : r = "all" <;>
      by_cases hp : p = "all" <;>
        simp [hr, hp, List.filter_filter, Bool.and_assoc, Bool.and_comm,
          Bool.and_left_comm]

/-! ## C2: filter composition -/

/-- C2: the filtered output is exactly the input's subsequence of
records passing every active predicate, order preserved; the recent
view is the 10-element prefix of the filtered sequence; and with
`region = 東北`, `prefecture = ALL`, `periodMode = ALL` the output is
exactly the records with a Tōhoku prefecture. -/
theorem filteredSightings_composition (sightings : List BearSighting)
    (showAllPeriod : Bool) (r p : String) (now : SimpleDate) :
    filteredSightings sightings showAllPeriod r p now =
      (sightings.filter fun s =>
        (showAllPeriod || dateLe (getSixMonthsAgo now) s.date) &&
        (decide (r = "all") || (regionPrefsOf r).contains s.prefecture) &&
        (decide (p = "all") || decide (s.prefecture = p))) ∧
    recentSightings sightings showAllPeriod r p now =
      (filteredSightings sightings showAllPeriod r p now).take 10 ∧
    filteredSightings sightings true "東北" "all" now =
      sightings.filter (fun s =>
        (["青森県", "岩手県", "宮城県", "秋田県", "山形県", "福島県"] :
          List String).contains s.prefecture) := by
  refine ⟨filteredSightings_eq_filter sightings showAllPeriod r p now, rfl, ?_⟩
  rw [filteredSightings_eq_filter]
  have hprefs : regionPrefsOf "東北" =
      ["青森県", "岩手県", "宮城県", "秋田県", "山形県", "福島県"] := by decide
  simp [hprefs]

/-! ## C10: region filter is redundant below a selected prefecture -/

theorem regions_lookup_self :
    ∀ e ∈ REGIONS, REGIONS.lookup e.1 = some e.2 := by
  decide

theorem regions_keys_ne_all :
    ∀ e ∈ REGIONS, e.1 ≠ "all" := by
  decide

theorem regions_prefs_ne_all :
    ∀ e ∈ REGIONS, ∀ q ∈ e.2, q ≠ "all" := by
  decide

/-- C10: for a prefecture `p` inside region `r`, filtering with
`(region = r, prefecture = p)` yields the same output as
`(region = ALL, prefecture = p)`. -/
theorem region_filter_redundant (sightings : List BearSighting)
    (showAllPeriod : Bool) (now : SimpleDate) (r : String)
    (prefs : List String) (p : String)
    (hmem : (r, prefs) ∈ REGIONS) (hp : p ∈ prefs) :
    filteredSightings sightings showAllPeriod r p now =
      filteredSightings sightings showAllPeriod "all" p now := by
  have hr : r ≠ "all" := regions_keys_ne_all (r, prefs) hmem
  have hpne : p ≠ "all" := regions_prefs_ne_all (r, prefs) hmem p hp
  have hlook : regionPrefsOf r = prefs := by
    unfold regionPrefsOf
    rw [regions_lookup_self (r, prefs) hmem]
    rfl
  rw [filteredSightings_eq_filter, filteredSightings_eq_filter]
  apply List.filter_congr
  intro s _
  by_cases hsp : s.prefecture = p
  · have hc : (regionPrefsOf r).contains s.prefecture = true := by
      rw [hlook, hsp]
      simpa using hp
    simp [hr, hsp, hc, hlook, hp]
  · simp [hsp, hpne]

/-- Witness for C10 with `r = 北海道`, `p = 北海道` on a one-record
collection. -/
theorem region_filter_redundant_witness :
    filteredSightings
      [{ id := "a", date := ⟨2025, 0, 1⟩, prefecture := "北海道", city := "",
         location := "", lat := 0, lng := 0, source := "", summary := "",
         createdAt := "" }]
      true "北海道" "北海道" ⟨2025, 0, 1⟩ =
    filteredSightings
      [{ id := "a", date := ⟨2025, 0, 1⟩, prefecture := "北海道", city := "",
         location := "", lat := 0, lng := 0, source := "", summary := "",
         createdAt := "" }]
      true "all" "北海道" ⟨2025, 0, 1⟩ :=
  region_filter_redundant _ true ⟨2025, 0, 1⟩ "北海道" ["北海道"] "北海道"
    (by decide) (by decide)

/-! ## C4: the RECENT window is calendar-month based -/

/-- C4: under `periodMode = RECENT`, a record dated one day after
`now - 6 calendar months` is retained and a record dated one day
before `now - 6 calendar months` is dropped (the cutoff is the
JavaScript `setMonth(getMonth() - 6)` date, not a 180-day span). -/
theorem recent_window_boundary (now : SimpleDate) (hv : now.Valid)
    (s1 s2 : BearSighting)
    (h1 : s1.date = nextDay (getSixMonthsAgo now))
    (h2 : s2.date = prevDay (getSixMonthsAgo now)) :
    filteredSightings [s1, s2] false "all" "all" now = [s1] := by
  have hc : (getSixMonthsAgo now).Valid := getSixMonthsAgo_valid now hv
  have hin : dateLe (getSixMonthsAgo now) s1.date = true := by
    rw [h1]
    exact dateLe_nextDay _ hc
  have hout : dateLe (getSixMonthsAgo now) s2.date = false := by
    rw [h2]
    exact not_dateLe_prevDay _ hc
  rw [filteredSightings_eq_filter]
  simp [List.filter, hin, hout]

/-- Witness for C4 at `now = 2026-10-12`: the cutoff is 2026-04-12,
2026-04-13 is retained and 2026-04-11 is dropped. -/
theorem recent_window_boundary_witness :
    filteredSightings
      [{ id := "in", date := ⟨2026, 3, 13⟩, prefecture := "北海道", city := "",
         location := "", lat := 0, lng := 0, source := "", summary := "",
         createdAt := "" },
       { id := "out", date := ⟨2026, 3, 11⟩, prefecture := "北海道", city := "",
         location := "", lat := 0, lng := 0, source := "", summary := "",
         createdAt := "" }]
      false "all" "all" ⟨2026, 9, 12⟩ =
    [{ id := "in", date := ⟨2026, 3, 13⟩, prefecture := "北海道", city := "",
       location := "", lat := 0, lng := 0, source := "", summary := "",
       createdAt := "" }] :=
  recent_window_boundary ⟨2026, 9, 12⟩ (by decide) _ _ (by decide) (by decide)

/-! ## Count-table lemmas (for C6)

`lookupCount` reads a key's value out of the association list the way
JavaScript object access `counts[p]` does (keys are unique, so first
match suffices); it is the specification-side accessor. -/

def lookupCount : List (String × Nat) → String → Nat
  | [], _ => 0
  | kv :: rest, p => if kv.1 = p then kv.2 else lookupCount rest p

theorem lookupCount_bump_ne (q p : String) (hqp : q ≠ p) :
    ∀ c : List (String × Nat),
      lookupCount (c.map fun kv => if kv.1 = q then (kv.1, kv.2 + 1) else kv) p =
        lookupCount c p := by
  intro c
  have hpq : p ≠ q := fun h => hqp h.symm
  induction c with
  | nil => rfl
  | cons kv rest ih =>
    by_cases hk : kv.1 = p
    · by_cases hq : kv.1 = q
      · exact absurd (hq.symm.trans hk) hqp
      · simp [lookupCount, hk, hq, hpq]
    · by_cases hq : kv.1 = q
      · simp [lookupCount, hk, hq, ih, hqp]
      · simp [lookupCount, hk, hq, ih]

theorem lookupCount_bump_eq (p : String) :
    ∀ c : List (String × Nat),
      (c.any fun kv => decide (kv.1 = p)) = true →
      lookupCount (c.map fun kv => if kv.1 = p then (kv.1, kv.2 + 1) else kv) p =
        lookupCount c p + 1 := by
  intro c
  induction c with
  | nil => intro h; simp at h
  | cons kv rest ih =>
    intro h
    by_cases hk : kv.1 = p
    · simp [lookupCount, hk]
    · simp only [List.any_cons, decide_eq_true_eq, hk, decide_False,
        Bool.false_or] at h
      simp [lookupCount, hk, ih h]

theorem lookupCount_absent (p : String) :
    ∀ c : List (String × Nat),
      (c.any fun kv => decide (kv.1 = p)) = false → lookupCount c p = 0 := by
  intro c
  induction c with
  | nil => intro _; rfl
  | cons kv rest ih =>
    intro h
    simp only [List.any_cons, Bool.or_eq_false_iff, decide_eq_false_iff_not] at h
    simp [lookupCount, h.1, ih (by simpa using h.2)]

theorem lookupCount_incCount (c : List (String × Nat)) (q p : String) :
    lookupCount (incCount c q) p = lookupCount c p + (if q = p then 1 else 0) := by
  unfold incCount
  by_cases hq : (c.any fun kv => decide (kv.1 = q)) = true
  · rw [if_pos hq]
    by_cases hqp : q = p
    · subst hqp
      rw [lookupCount_bump_eq q c hq, if_pos rfl]
    · rw [lookupCount_bump_ne q p hqp c, if_neg hqp]
      omega
  · rw [if_neg hq]
    rw [Bool.not_eq_true] at hq
    induction c with
    | nil => simp [lookupCount]
    | cons kv rest ih =>
      simp only [List.any_cons, Bool.or_eq_false_iff,
        decide_eq_false_iff_not] at hq
      by_cases hk : kv.1 = p
      · simp [lookupCount, hk]
        exact fun h => hq.1 (hk.trans h.symm)
      · simp only [List.cons_append, lookupCount, hk, if_neg]
        exact ih (by simpa using hq.2)

theorem any_map_bump (q p : String) :
    ∀ c : List (String × Nat),
      ((c.map fun kv => if kv.1 = q then (kv.1, kv.2 + 1) else kv).any
          fun kv => decide (kv.1 = p)) =
        (c.any fun kv => decide (kv.1 = p)) := by
  intro c
  induction c with
  | nil => rfl
  | cons kv rest ih =>
    by_cases hq : kv.1 = q <;> simp [hq, ih]

theorem any_incCount (c : List (String × Nat)) (q p : String) :
    ((incCount c q).any fun kv => decide (kv.1 = p)) =
      ((c.any fun kv => decide (kv.1 = p)) || decide (q = p)) := by
  unfold incCount
  by_cases hq : (c.any fun kv => decide (kv.1 = q)) = true
  · rw [if_pos hq, any_map_bump]
    by_cases hqp : q = p
    · subst hqp
      simp [hq]
    · simp [hqp]
  · rw [if_neg hq]
    simp

theorem prefCounts_fold_any (p : String) :
    ∀ (rows : List BearSighting) (c : List (String × Nat)),
      (((rows.foldl (fun acc s => incCount acc s.prefecture) c)).any
          fun kv => decide (kv.1 = p)) =
        ((c.any fun kv => decide (kv.1 = p)) ||
          rows.any fun s => decide (s.prefecture = p)) := by
  intro rows
  induction rows with
  | nil => intro c; simp
  | cons r rest ih =>
    intro c
    simp only [List.foldl_cons, List.any_cons]
    rw [ih, any_incCount, Bool.or_assoc]

theorem prefCounts_fold_count (p : String) :
    ∀ (rows : List BearSighting) (c : List (String × Nat)),
      lookupCount (rows.foldl (fun acc s => incCount acc s.prefecture) c) p =
        lookupCount c p + (rows.filter fun s => decide (s.prefecture = p)).length := by
  intro rows
  induction rows with
  | nil => intro c; simp
  | cons r rest ih =>
    intro c
    simp only [List.foldl_cons]
    rw [ih, lookupCount_incCount]
    by_cases hr : r.prefecture = p
    · simp [List.filter_cons, hr]
      omega
    · simp [List.filter_cons, hr]

/-! ## C6: counts come from the unfiltered collection (amended)

The claim that zero-count prefectures remain enumerable fails (see the
counterexample below): `prefectureCounts` only carries keys for
prefectures that occur in the collection.  The amended statement:
both count tables are functions of the unfiltered collection alone,
`regionCounts` enumerates all 8 regions (zero counts included) with
the full-collection counts, and `prefectureCounts` records the
full-collection multiplicity for exactly the occurring prefectures. -/

/-- C6 (amended): count tables are computed from the unfiltered
collection and are invariant under the active filter; `regionCounts`
always enumerates all 8 regions with full-collection counts;
`prefectureCounts` gives the full-collection multiplicity of every
prefecture but carries keys only for prefectures with at least one
record. -/
theorem counts_from_unfiltered (s : List BearSighting) :
    (regionCounts s).map Prod.fst = REGIONS.map Prod.fst ∧
    (∀ r prefs, (r, prefs) ∈ REGIONS →
      (r, (s.filter fun x => prefs.contains x.prefecture).length) ∈ regionCounts s) ∧
    (∀ p, lookupCount (prefectureCounts s) p =
      (s.filter fun x => decide (x.prefecture = p)).length) ∧
    (∀ p, ((prefectureCounts s).any fun kv => decide (kv.1 = p)) =
      (s.any fun x => decide (x.prefecture = p))) ∧
    (∀ a r p now a' r' p' now',
      (applyPipeline s a r p now).2 = (applyPipeline s a' r' p' now').2) := by
  refine ⟨?_, ?_, ?_, ?_, ?_⟩
  · simp [regionCounts, List.map_map, Function.comp]
  · intro r prefs hmem
    exact List.mem_map_of_mem _ hmem
  · intro p
    unfold prefectureCounts
    rw [prefCounts_fold_count]
    simp [lookupCount]
  · intro p
    unfold prefectureCounts
    rw [prefCounts_fold_any]
    rfl
  · intro a r p now a' r' p' now'
    rfl

/-- Counterexample for C6 as stated: in a collection with one 東京都
record, 北海道 has count zero yet has no entry in `prefectureCounts`,
so zero-count prefectures are not enumerable there. -/
theorem prefectureCounts_zero_not_enumerable :
    ((prefectureCounts
        [{ id := "t", date := ⟨2025, 0, 1⟩, prefecture := "東京都", city := "",
           location := "", lat := 0, lng := 0, source := "", summary := "",
           createdAt := "" }]).any fun kv => decide (kv.1 = "北海道")) = false := by
  decide

/-- Witness for C6 (amended) at the 東北 region of the empty
collection: the region is enumerable with count zero. -/
theorem counts_from_unfiltered_witness :
    ("東北", 0) ∈ regionCounts [] :=
  (counts_from_unfiltered []).2.1 "東北"
    ["青森県", "岩手県", "宮城県", "秋田県", "山形県", "福島県"] (by decide)

/-! ## Detector branch characterisations -/

theorem onPositionSuccess_none_eq (s : List BearSighting) (st : ViewState) :
    onPositionSuccess s st none =
      { st with locationError := some "都道府県を特定できませんでした",
                isLocating := false } := rfl

theorem onPositionSuccess_found_eq (s : List BearSighting) (st : ViewState)
    (pref region : String)
    (hsome : getRegionFromPrefecture pref = some region)
    (hany : (s.any fun x => decide (x.prefecture = pref)) = true) :
    onPositionSuccess s st (some pref) =
      { st with selectedRegion := region, selectedPrefecture := pref,
                detectedPrefecture := some pref, isLocating := false } := by
  simp only [onPositionSuccess, hsome, hany]
  simp

theorem onPositionSuccess_nodata_eq (s : List BearSighting) (st : ViewState)
    (pref region : String)
    (hsome : getRegionFromPrefecture pref = some region)
    (hany : (s.any fun x => decide (x.prefecture = pref)) = false) :
    onPositionSuccess s st (some pref) =
      { st with selectedRegion := region,
                detectedPrefecture := some pref, isLocating := false } := by
  simp only [onPositionSuccess, hsome, hany]
  simp

/-! ## C7: filter-state consistency invariant (amended)

The invariant — a selected non-ALL prefecture always lies in the
selected non-ALL region — is established by `handleRegionChange` and
by the detection branch that selects a prefecture, but the no-data
detection branch changes the region while leaving an already-selected
prefecture in place, so it preserves the invariant only from states
whose prefecture is ALL (see the counterexample). -/

def FilterInvariant (st : ViewState) : Prop :=
  st.selectedPrefecture ≠ "all" → st.selectedRegion ≠ "all" →
    ∃ e ∈ REGIONS, e.1 = st.selectedRegion ∧ st.selectedPrefecture ∈ e.2

instance (st : ViewState) : Decidable (FilterInvariant st) := by
  unfold FilterInvariant
  infer_instance

theorem canonical_region_mem (pref : String) (hcanon : pref ∈ prefNames47) :
    ∃ region prefs, getRegionFromPrefecture pref = some region ∧
      (region, prefs) ∈ REGIONS ∧ pref ∈ prefs := by
  obtain ⟨r, _, hsome⟩ := regions_totality pref hcanon
  obtain ⟨prefs, hmem, hpp⟩ := regionLookup_eq_some REGIONS pref r hsome
  exact ⟨r, prefs, hsome, hmem, hpp⟩

theorem invariant_onPositionSuccess_canonical (s : List BearSighting)
    (st : ViewState) (pref : String) (hcanon : pref ∈ prefNames47)
    (hok : (s.any fun x => decide (x.prefecture = pref)) = true ∨
      st.selectedPrefecture = "all") :
    FilterInvariant (onPositionSuccess s st (some pref)) := by
  obtain ⟨region, prefs, hsome, hmem, hpp⟩ := canonical_region_mem pref hcanon
  cases hany : (s.any fun x => decide (x.prefecture = pref)) with
  | true =>
    rw [onPositionSuccess_found_eq s st pref region hsome hany]
    intro _ _
    exact ⟨(region, prefs), hmem, rfl, hpp⟩
  | false =>
    rcases hok with hok | hok
    · rw [hany] at hok
      exact absurd hok (by simp)
    · rw [onPositionSuccess_nodata_eq s st pref region hsome hany]
      intro hp
      exact absurd hok hp

/-- C7 (amended): `handleRegionChange` always (re-)establishes the
consistency invariant; the detection success path that selects a
prefecture establishes it (the prefecture comes with its own region);
the no-data branch and the failure paths leave the prefecture
untouched, so they preserve the invariant from any state whose
prefecture is ALL (no-data branch) or from any invariant state
(failure paths). -/
theorem filter_invariant_transitions :
    (∀ st r, FilterInvariant (handleRegionChange st r)) ∧
    (∀ (s : List BearSighting) (st : ViewState) (pref : String),
      pref ∈ prefNames47 →
      (s.any fun x => decide (x.prefecture = pref)) = true →
      FilterInvariant (onPositionSuccess s st (some pref))) ∧
    (∀ (s : List BearSighting) (st : ViewState) (pref : String),
      pref ∈ prefNames47 → st.selectedPrefecture = "all" →
      FilterInvariant (onPositionSuccess s st (some pref))) ∧
    (∀ s st, FilterInvariant st → FilterInvariant (onPositionSuccess s st none)) ∧
    (∀ st code, FilterInvariant st → FilterInvariant (onPositionError st code)) ∧
    (∀ st, FilterInvariant st → FilterInvariant (detectUnsupported st)) ∧
    (∀ st, FilterInvariant st → FilterInvariant (startLocating st)) := by
  refine ⟨?_, ?_, ?_, ?_, ?_, ?_, ?_⟩
  · intro st r
    intro hp _
    exact absurd rfl hp
  · intro s st pref hcanon hany
    exact invariant_onPositionSuccess_canonical s st pref hcanon (Or.inl hany)
  · intro s st pref hcanon hall
    exact invariant_onPositionSuccess_canonical s st pref hcanon (Or.inr hall)
  · intro s st h
    rw [onPositionSuccess_none_eq]
    exact h
  · intro st code h
    exact h
  · intro st h
    exact h
  · intro st h
    exact h

/-- Counterexample for C7 as stated: from the consistent state
(region 関東, prefecture 東京都), a detection that resolves 北海道 with
no matching record changes the region to 北海道 but keeps 東京都
selected, breaking the invariant. -/
theorem filter_invariant_break :
    FilterInvariant
      { selectedRegion := "関東", selectedPrefecture := "東京都",
        isLocating := false, locationError := none, detectedPrefecture := none } ∧
    ¬ FilterInvariant
        (onPositionSuccess []
          { selectedRegion := "関東", selectedPrefecture := "東京都",
            isLocating := false, locationError := none,
            detectedPrefecture := none }
          (some "北海道")) := by
  constructor <;> decide

/-- Witness for C7 (amended): detection selecting 北海道 over a
collection that contains it yields a consistent state. -/
theorem filter_invariant_transitions_witness :
    FilterInvariant
      (onPositionSuccess
        [{ id := "a", date := ⟨2025, 0, 1⟩, prefecture := "北海道", city := "",
           location := "", lat := 0, lng := 0, source := "", summary := "",
           createdAt := "" }]
        initialViewState (some "北海道")) :=
  filter_invariant_transitions.2.1 _ initialViewState "北海道"
    (by decide) (by decide)

/-! ## C8: the geocode adapter never throws; failures leave the
filter selection unchanged -/

/-- C8: `getPrefectureFromCoords` returns a canonical prefecture name
or `null` on every input — `null` when the call throws, when
`results.mupicode` is missing, and when the 2-digit code maps to no
prefecture; on a `null` resolution the detector reports
都道府県を特定できませんでした (PREFECTURE_UNRESOLVED), and that path,
the platform failure paths and the unsupported-environment path all
leave the region/prefecture selection unchanged. -/
theorem geocode_never_throws :
    (∀ o, getPrefectureFromCoords o = none ∨
      ∃ q, getPrefectureFromCoords o = some q ∧ q ∈ prefNames47) ∧
    getPrefectureFromCoords GeoFetchOutcome.thrown = none ∧
    getPrefectureFromCoords (GeoFetchOutcome.response none) = none ∧
    (∀ mupicode, prefCodeTable.lookup (mupicode.take 2) = none →
      getPrefectureFromCoords (GeoFetchOutcome.response (some mupicode)) = none) ∧
    (∀ s st o, getPrefectureFromCoords o = none →
      (detectWithPosition s st o).locationError =
        some "都道府県を特定できませんでした" ∧
      (detectWithPosition s st o).selectedRegion = st.selectedRegion ∧
      (detectWithPosition s st o).selectedPrefecture = st.selectedPrefecture) ∧
    (∀ st code,
      (detectWithFailure st code).selectedRegion = st.selectedRegion ∧
      (detectWithFailure st code).selectedPrefecture = st.selectedPrefecture ∧
      (detectWithFailure st code).locationError =
        some (geolocErrorMessage code)) ∧
    (∀ st, (detectUnsupported st).selectedRegion = st.selectedRegion ∧
      (detectUnsupported st).selectedPrefecture = st.selectedPrefecture) := by
  refine ⟨?_, rfl, rfl, ?_, ?_, ?_, ?_⟩
  · intro o
    match o with
    | .thrown => exact Or.inl rfl
    | .response none => exact Or.inl rfl
    | .response (some m) =>
      cases hl : prefCodeTable.lookup (m.take 2) with
      | none =>
        exact Or.inl (by simp [getPrefectureFromCoords, hl])
      | some v =>
        refine Or.inr ⟨v, by simp [getPrefectureFromCoords, hl], ?_⟩
        exact lookup_mem_values prefCodeTable (m.take 2) v hl
  · intro mupicode hl
    simp [getPrefectureFromCoords, hl]
  · intro s st o h
    unfold detectWithPosition
    rw [h, onPositionSuccess_none_eq]
    exact ⟨rfl, rfl, rfl⟩
  · intro st code
    exact ⟨rfl, rfl, rfl⟩
  · intro st
    exact ⟨rfl, rfl⟩

/-- Witness for C8: a thrown fetch yields a `null` resolution and a
PREFECTURE_UNRESOLVED failure that leaves the default selection. -/
theorem geocode_never_throws_witness :
    (detectWithPosition [] initialViewState GeoFetchOutcome.thrown).locationError =
      some "都道府県を特定できませんでした" ∧
    (detectWithPosition [] initialViewState GeoFetchOutcome.thrown).selectedRegion =
      "all" ∧
    (detectWithPosition [] initialViewState GeoFetchOutcome.thrown).selectedPrefecture =
      "all" :=
  geocode_never_throws.2.2.2.2.1 [] initialViewState GeoFetchOutcome.thrown rfl

/-! ## C9: the no-data prefecture path -/

/-- C9: when detection resolves a prefecture with no matching record
but a valid region, the detector sets the region to that prefecture's
region, leaves the prefecture at ALL, records the detected prefecture
as an informational (non-error) condition, and enters no failure state
(`locationError` stays clear). -/
theorem no_data_prefecture_path (s : List BearSighting) (st : ViewState)
    (o : GeoFetchOutcome) (pref region : String)
    (hres : getPrefectureFromCoords o = some pref)
    (hsome : getRegionFromPrefecture pref = some region)
    (hnone : (s.any fun x => decide (x.prefecture = pref)) = false)
    (hall : st.selectedPrefecture = "all") :
    (detectWithPosition s st o).selectedRegion = region ∧
    (detectWithPosition s st o).selectedPrefecture = "all" ∧
    (detectWithPosition s st o).locationError = none ∧
    (detectWithPosition s st o).detectedPrefecture = some pref ∧
    (detectWithPosition s st o).isLocating = false := by
  unfold detectWithPosition
  rw [hres, onPositionSuccess_nodata_eq s (startLocating st) pref region hsome hnone]
  exact ⟨rfl, hall, rfl, rfl, rfl⟩

/-- Witness for C9: a geocode response with code 01 (北海道) over an
empty collection sets the region to 北海道 from the default state. -/
theorem no_data_prefecture_path_witness :
    (detectWithPosition [] initialViewState
        (GeoFetchOutcome.response (some "01000"))).selectedRegion = "北海道" ∧
    (detectWithPosition [] initialViewState
        (GeoFetchOutcome.response (some "01000"))).selectedPrefecture = "all" ∧
    (detectWithPosition [] initialViewState
        (GeoFetchOutcome.response (some "01000"))).locationError = none ∧
    (detectWithPosition [] initialViewState
        (GeoFetchOutcome.response (some "01000"))).detectedPrefecture =
      some "北海道" ∧
    (detectWithPosition [] initialViewState
        (GeoFetchOutcome.response (some "01000"))).isLocating = false :=
  no_data_prefecture_path [] initialViewState
    (GeoFetchOutcome.response (some "01000")) "北海道" "北海道"
    (by decide) (by decide) rfl rfl

end KumaMap
